import Mathlib

/-!
Shallow embedding of the link-layer framing protocol in `src/loraL2.py`
(`class LoRaLevel2Protocol`).  Byte strings are modelled as `List Nat`
with every entry below 256; the mutable instance state (`self.device_id`,
`self.sequence_number`) is an explicit `State` record threaded through
`create_frame`, the only method that mutates it.  `struct.pack('>H', n)`
and `struct.unpack('>H', bs)` are modelled on their 16-bit domain by
`pack16` / `unpack16`.  Python exceptions raised by `create_frame` are
modelled with `Except`; `parse_frame` returns `Option` exactly as the
Python returns `None` on rejection (its `try/except` guard is
unreachable once the length check passed, since every subscript it
performs is then in bounds, so the embedding is a plain total function).
-/

namespace LoRaL2

/-- Start-of-frame delimiter, source constant `FRAME_HEADER = b'\xAA'`. -/
def FRAME_HEADER : Nat := 0xAA

/-- End-of-frame delimiter, source constant `FRAME_FOOTER = b'\x55'`. -/
def FRAME_FOOTER : Nat := 0x55

/-- Maximum payload size, source constant `MAX_PAYLOAD_SIZE = 255`. -/
def MAX_PAYLOAD_SIZE : Nat := 255

/-- Mutable instance state of a `LoRaLevel2Protocol` object:
`self.device_id` and `self.sequence_number`. -/
structure State where
  device_id : Nat
  sequence_number : Nat
deriving DecidableEq

/-- Error raised by `create_frame`:
`ValueError("Payload exceeds maximum size")`. -/
inductive ProtocolError where
  | payloadTooLarge
deriving DecidableEq

/-- Big-endian 16-bit serialization, modelling `struct.pack('>H', n)` on
its valid domain `0 ≤ n ≤ 0xFFFF`. -/
def pack16 (n : Nat) : List Nat := [n / 256 % 256, n % 256]

/-- Big-endian 16-bit deserialization, modelling
`struct.unpack('>H', bytes([hi, lo]))[0]`. -/
def unpack16 (hi lo : Nat) : Nat := hi * 256 + lo

/-- Models `__init__`: `self.device_id = device_id or random.randint(0, 0xFFFF)`
and `self.sequence_number = 0`.  Python `or` falls through to the random
draw when `device_id` is `None` or `0`; the value drawn by
`random.randint(0, 0xFFFF)` is made explicit as the argument `rand_id`. -/
def protocol_init (device_id : Option Nat) (rand_id : Nat) : State :=
  { device_id :=
      match device_id with
      | some d => if d = 0 then rand_id else d
      | none => rand_id
    sequence_number := 0 }

/-- Models `create_frame(self, destination_id, payload)`.  It validates the
payload size (raising before any state change), then increments
`self.sequence_number` modulo 256, then builds
`[Header][Source ID][Dest ID][Seq Num][Payload Length][Payload][CRC16][Footer]`
where the CRC field is the constant `crc = 1` the source embeds. -/
def create_frame (s : State) (destination_id : Nat) (payload : List Nat) :
    State × Except ProtocolError (List Nat) :=
  if payload.length > MAX_PAYLOAD_SIZE then
    (s, Except.error ProtocolError.payloadTooLarge)
  else
    let s2 : State := { s with sequence_number := (s.sequence_number + 1) % 256 }
    let crc : Nat := 1
    let frame : List Nat :=
      [FRAME_HEADER] ++ pack16 s2.device_id ++ pack16 destination_id ++
        [s2.sequence_number] ++ [payload.length] ++ payload ++
        pack16 crc ++ [FRAME_FOOTER]
    (s2, Except.ok frame)

/-- Result of a successful `parse_frame`: the dictionary
`{'source_id': …, 'destination_id': …, 'sequence_number': …, 'payload': …}`. -/
structure Frame where
  source_id : Nat
  destination_id : Nat
  sequence_number : Nat
  payload : List Nat
deriving DecidableEq

/-- Models `parse_frame(self, received_frame)`.  Rejections, in source
order: length below 10; first byte not the header or last byte not the
footer; embedded CRC (the two bytes at `received_frame[-3:-1]`, big
endian) different from the recomputed `calculated_crc = 1`.  The payload
slice `received_frame[7:7+payload_len]` is Python slicing, which clamps
at the end of the buffer — hence `(bs.drop 7).take payload_len`. -/
def parse_frame (bs : List Nat) : Option Frame :=
  if bs.length < 10 then none
  else if bs.headD 0 ≠ FRAME_HEADER ∨ bs.getLastD 0 ≠ FRAME_FOOTER then none
  else
    let source_id := unpack16 (bs.getD 1 0) (bs.getD 2 0)
    let dest_id := unpack16 (bs.getD 3 0) (bs.getD 4 0)
    let seq_num := bs.getD 5 0
    let payload_len := bs.getD 6 0
    let payload := (bs.drop 7).take payload_len
    let received_crc := unpack16 (bs.getD (bs.length - 3) 0) (bs.getD (bs.length - 2) 0)
    let calculated_crc := 1
    if received_crc ≠ calculated_crc then none
    else some ⟨source_id, dest_id, seq_num, payload⟩

/-- Result of `retransmit_strategy`: the configuration dictionary
`{'max_retries': …, 'timeout': …}`. -/
structure RetransmitConfig where
  max_retries : Nat
  timeout : ℚ
deriving DecidableEq

/-- Models `retransmit_strategy(self, max_retries=3, timeout=2.0)`: the
source merely returns the configuration dictionary; it performs no
transmission, no receive and no loop. -/
def retransmit_strategy (max_retries : Nat := 3) (timeout : ℚ := 2) :
    RetransmitConfig :=
  { max_retries := max_retries, timeout := timeout }

/-- State after `n` successive `create_frame` calls with the same
destination and payload, starting from `s`. -/
def iterate_encode (dst : Nat) (p : List Nat) (s : State) : Nat → State
  | 0 => s
  | n + 1 => (create_frame (iterate_encode dst p s n) dst p).1

/-- Characterization of the rejection conditions of `parse_frame`: the
source returns `None` exactly when the input is shorter than 10 bytes,
does not start with the header byte, does not end with the footer byte,
or its embedded big-endian checksum field differs from the recomputed
constant `calculated_crc = 1`. -/
theorem parse_frame_eq_none_iff (bs : List Nat) :
    parse_frame bs = none ↔
      bs.length < 10 ∨ bs.headD 0 ≠ FRAME_HEADER ∨ bs.getLastD 0 ≠ FRAME_FOOTER ∨
        unpack16 (bs.getD (bs.length - 3) 0) (bs.getD (bs.length - 2) 0) ≠ 1 := by
  unfold parse_frame
  split_ifs <;> simp_all
  tauto

/-- Value of `parse_frame` when every rejection condition fails. -/
theorem parse_frame_eq_some (bs : List Nat)
    (h1 : ¬ bs.length < 10) (h2 : bs.headD 0 = FRAME_HEADER)
    (h3 : bs.getLastD 0 = FRAME_FOOTER)
    (h4 : unpack16 (bs.getD (bs.length - 3) 0) (bs.getD (bs.length - 2) 0) = 1) :
    parse_frame bs = some ⟨unpack16 (bs.getD 1 0) (bs.getD 2 0),
      unpack16 (bs.getD 3 0) (bs.getD 4 0), bs.getD 5 0,
      (bs.drop 7).take (bs.getD 6 0)⟩ := by
  unfold parse_frame
  split_ifs <;> simp_all

/-- Explicit byte-level form of a successful `create_frame`. -/
theorem create_frame_of_le (s : State) (dst : Nat) (p : List Nat)
    (hp : p.length ≤ 255) :
    create_frame s dst p =
      (⟨s.device_id, (s.sequence_number + 1) % 256⟩,
       Except.ok (FRAME_HEADER :: s.device_id / 256 % 256 :: s.device_id % 256 ::
         dst / 256 % 256 :: dst % 256 :: (s.sequence_number + 1) % 256 :: p.length ::
         (p ++ [0, 1, FRAME_FOOTER]))) := by
  unfold create_frame
  rw [if_neg (by unfold MAX_PAYLOAD_SIZE; omega)]
  simp [pack16]

/-- Parsing a byte string with the well-formed frame shape recovers the
embedded fields. -/
theorem parse_frame_wellformed (a b c d q : Nat) (p : List Nat) :
    parse_frame (FRAME_HEADER :: a :: b :: c :: d :: q :: p.length ::
        (p ++ [0, 1, FRAME_FOOTER])) =
      some ⟨unpack16 a b, unpack16 c d, q, p⟩ := by
  set bs := FRAME_HEADER :: a :: b :: c :: d :: q :: p.length ::
      (p ++ [0, 1, FRAME_FOOTER]) with hbs
  have hsplit : bs = ([FRAME_HEADER, a, b, c, d, q, p.length] ++ p) ++
      [0, 1, FRAME_FOOTER] := by simp [hbs]
  have hlen7 : ([FRAME_HEADER, a, b, c, d, q, p.length] ++ p).length = p.length + 7 := by
    simp +arith
  have hlen : bs.length = p.length + 10 := by simp [hbs]
  have h1 : ¬ bs.length < 10 := by omega
  have h2 : bs.headD 0 = FRAME_HEADER := by rw [hbs]; rfl
  have h3 : bs.getLastD 0 = FRAME_FOOTER := by
    rw [show bs = (([FRAME_HEADER, a, b, c, d, q, p.length] ++ p) ++ [0, 1]) ++
      [FRAME_FOOTER] by simp [hbs], List.getLastD_concat]
  have hcrc3 : bs.getD (bs.length - 3) 0 = 0 := by
    rw [hlen, show p.length + 10 - 3 = p.length + 7 by omega, hsplit,
      List.getD_append_right _ _ _ _ (by omega)]
    rw [show p.length + 7 - ([FRAME_HEADER, a, b, c, d, q, p.length] ++ p).length = 0
      by omega]
    rfl
  have hcrc2 : bs.getD (bs.length - 2) 0 = 1 := by
    rw [hlen, show p.length + 10 - 2 = p.length + 8 by omega, hsplit,
      List.getD_append_right _ _ _ _ (by omega)]
    rw [show p.length + 8 - ([FRAME_HEADER, a, b, c, d, q, p.length] ++ p).length = 1
      by omega]
    rfl
  have h4 : unpack16 (bs.getD (bs.length - 3) 0) (bs.getD (bs.length - 2) 0) = 1 := by
    rw [hcrc3, hcrc2]; rfl
  rw [parse_frame_eq_some bs h1 h2 h3 h4]
  have hdrop : bs.drop 7 = p ++ [0, 1, FRAME_FOOTER] := by rw [hbs]; rfl
  have hget6 : bs.getD 6 0 = p.length := by rw [hbs]; rfl
  have htake : (bs.drop 7).take (bs.getD 6 0) = p := by
    rw [hdrop, hget6, List.take_left]
  rw [htake]
  rw [show bs.getD 1 0 = a by rw [hbs]; rfl, show bs.getD 2 0 = b by rw [hbs]; rfl,
    show bs.getD 3 0 = c by rw [hbs]; rfl, show bs.getD 4 0 = d by rw [hbs]; rfl,
    show bs.getD 5 0 = q by rw [hbs]; rfl]

/-- Big-endian 16-bit serialization round trip on the 16-bit domain. -/
theorem unpack16_pack16 (n : Nat) (h : n ≤ 0xFFFF) :
    unpack16 (n / 256 % 256) (n % 256) = n := by
  unfold unpack16
  omega

/-- Sequence counter after `n` successful encodes from a fresh instance. -/
theorem iterate_encode_sequence (dst d : Nat) (p : List Nat)
    (hp : p.length ≤ 255) (n : Nat) :
    (iterate_encode dst p ⟨d, 0⟩ n).sequence_number = n % 256 := by
  induction n with
  | zero => rfl
  | succ n ih =>
    unfold iterate_encode create_frame
    rw [if_neg (by unfold MAX_PAYLOAD_SIZE; omega)]
    show ((iterate_encode dst p ⟨d, 0⟩ n).sequence_number + 1) % 256 = (n + 1) % 256
    rw [ih]
    omega

/-- Every default-read byte of a byte string is below 256. -/
theorem getD_lt_of_bytes (bs : List Nat) (hb : ∀ b ∈ bs, b < 256) (k : Nat) :
    bs.getD k 0 < 256 := by
  by_cases hk : k < bs.length
  · rw [List.getD_eq_getElem bs 0 hk]
    exact hb _ (List.getElem_mem hk)
  · rw [List.getD_eq_default bs 0 (by omega)]
    omega

/-- C1: the source embeds the constant `crc = 1` instead of a checksum
computed from the covered bytes, so `parse_frame` accepts corrupted
frames.  Concretely: the frame a fresh device `0x1234` encodes for
destination `0x5678` with payload `[0x48]`, after a single-bit flip in
its payload byte (`0x48` to `0x49`), is still parsed successfully — the
claim that every such corruption makes decode return none is violated by
the code. -/
theorem crc_constant_accepts_bitflip :
    (create_frame ⟨0x1234, 0⟩ 0x5678 [0x48]).2 =
      Except.ok [0xAA, 0x12, 0x34, 0x56, 0x78, 1, 1, 0x48, 0, 1, 0x55] ∧
    parse_frame [0xAA, 0x12, 0x34, 0x56, 0x78, 1, 1, 0x49, 0, 1, 0x55] =
      some ⟨0x1234, 0x5678, 1, [0x49]⟩ :=
  ⟨rfl, by decide⟩

/-- C2: the source's `retransmit_strategy(max_retries=3, timeout=2.0)`
only returns the configuration dictionary; it performs no transmission,
drives no retry loop, and never consults a transport — so no send
attempt, no `RetriesExhausted` outcome and no four transmissions exist
in the code. -/
theorem retransmit_strategy_returns_config_only :
    retransmit_strategy 3 2 = { max_retries := 3, timeout := 2 } :=
  rfl

/-- C3 (amended): `parse_frame` returns none exactly when the input is
shorter than 10 bytes, the first byte is not `0xAA`, the last byte is
not `0x55`, or the embedded big-endian checksum field (bytes at
positions `length - 3` and `length - 2`) differs from the recomputed
constant checksum 1.  A declared payload length that does not fit the
remaining buffer is NOT rejected: Python slicing silently truncates the
payload. -/
theorem parse_frame_none_characterization (bs : List Nat) :
    parse_frame bs = none ↔
      bs.length < 10 ∨ bs.headD 0 ≠ FRAME_HEADER ∨ bs.getLastD 0 ≠ FRAME_FOOTER ∨
        unpack16 (bs.getD (bs.length - 3) 0) (bs.getD (bs.length - 2) 0) ≠ 1 :=
  parse_frame_eq_none_iff bs

/-- C3 (counterexample to the claim as stated): a 10-byte input whose
declared payload length 5 exceeds the zero bytes of room left in the
buffer is not rejected; `parse_frame` returns a frame whose payload was
silently truncated to the checksum and footer bytes. -/
theorem parse_frame_accepts_overlong_length :
    ([0xAA, 0, 0, 0, 0, 0, 5, 0, 1, 0x55] : List Nat).getD 6 0 + 10 > 10 ∧
    parse_frame [0xAA, 0, 0, 0, 0, 0, 5, 0, 1, 0x55] =
      some ⟨0, 0, 0, [0, 1, 0x55]⟩ := by
  decide

/-- C4: round trip.  For every 16-bit device and destination id and
every byte payload of length at most 255, parsing the frame built by
`create_frame` recovers the payload, the destination id, and the
encoder's device id as source id. -/
theorem create_parse_roundtrip (s : State) (dst : Nat) (p f : List Nat)
    (hdev : s.device_id ≤ 0xFFFF) (hdst : dst ≤ 0xFFFF)
    (hlen : p.length ≤ 255) (_hbytes : ∀ b ∈ p, b < 256)
    (hf : (create_frame s dst p).2 = Except.ok f) :
    ∃ fr : Frame, parse_frame f = some fr ∧ fr.payload = p ∧
      fr.destination_id = dst ∧ fr.source_id = s.device_id := by
  rw [create_frame_of_le s dst p hlen] at hf
  simp only [Except.ok.injEq] at hf
  refine ⟨⟨s.device_id, dst, (s.sequence_number + 1) % 256, p⟩, ?_, rfl, rfl, rfl⟩
  rw [← hf, parse_frame_wellformed,
    unpack16_pack16 s.device_id hdev, unpack16_pack16 dst hdst]

/-- Concrete round trip instance: device `0x1234`, destination `0x5678`,
payload `[1, 2, 3]`. -/
theorem create_parse_roundtrip_witness :
    ∃ fr : Frame,
      parse_frame [0xAA, 0x12, 0x34, 0x56, 0x78, 1, 3, 1, 2, 3, 0, 1, 0x55] = some fr ∧
      fr.payload = [1, 2, 3] ∧ fr.destination_id = 0x5678 ∧ fr.source_id = 0x1234 :=
  create_parse_roundtrip ⟨0x1234, 0⟩ 0x5678 [1, 2, 3]
    [0xAA, 0x12, 0x34, 0x56, 0x78, 1, 3, 1, 2, 3, 0, 1, 0x55]
    (by decide) (by decide) (by decide) (by decide) rfl

/-- C5 (amended): a strict truncation of a valid encoded frame is
rejected by `parse_frame` unless the truncation keeps at least 10 bytes,
ends on a `0x55` byte, and the two bytes before that ending byte are
`0x00 0x01` (the embedded constant checksum) — in which case the
truncation itself parses as a shorter well-formed frame. -/
theorem parse_frame_truncation_rejection (s : State) (dst : Nat) (p f : List Nat)
    (k : Nat) (hf : (create_frame s dst p).2 = Except.ok f) (hk : k < f.length) :
    parse_frame (f.take k) = none ↔
      ¬(10 ≤ k ∧ (f.take k).getLastD 0 = FRAME_FOOTER ∧
        unpack16 ((f.take k).getD (k - 3) 0) ((f.take k).getD (k - 2) 0) = 1) := by
  have hlen : p.length ≤ 255 := by
    by_contra hgt
    rw [show create_frame s dst p = (s, Except.error ProtocolError.payloadTooLarge) by
      unfold create_frame; rw [if_pos (by unfold MAX_PAYLOAD_SIZE; omega)]] at hf
    exact absurd hf (by simp)
  rw [create_frame_of_le s dst p hlen] at hf
  simp only [Except.ok.injEq] at hf
  have hlength : (f.take k).length = k := by
    rw [List.length_take]; omega
  have hhead : 1 ≤ k → (f.take k).headD 0 = FRAME_HEADER := by
    intro h1
    obtain ⟨k1, rfl⟩ : ∃ k1, k = k1 + 1 := ⟨k - 1, by omega⟩
    rw [← hf]
    rfl
  rw [parse_frame_eq_none_iff, hlength]
  by_cases hk10 : k < 10
  · constructor
    · intro _ hc
      omega
    · intro _
      left
      exact hk10
  · have hH : (f.take k).headD 0 = FRAME_HEADER := hhead (by omega)
    simp only [hH, ne_eq, not_true_eq_false, false_or]
    constructor
    · rintro (h | h | h) hc
      · omega
      · exact h hc.2.1
      · exact h hc.2.2
    · intro hc
      by_cases hL : (f.take k).getLastD 0 = FRAME_FOOTER
      · by_cases hC : unpack16 ((f.take k).getD (k - 3) 0) ((f.take k).getD (k - 2) 0) = 1
        · exact absurd ⟨by omega, hL, hC⟩ hc
        · right; right; exact hC
      · right; left; exact hL

/-- Concrete truncation instance: the 11-byte frame for payload `[72]`
cut to its first 5 bytes is rejected. -/
theorem parse_frame_truncation_rejection_witness :
    parse_frame (List.take 5 [0xAA, 0x12, 0x34, 0x56, 0x78, 1, 1, 72, 0, 1, 0x55]) =
        none ↔
      ¬(10 ≤ 5 ∧
        (List.take 5 [0xAA, 0x12, 0x34, 0x56, 0x78, 1, 1, 72, 0, 1, 0x55]).getLastD 0 =
          FRAME_FOOTER ∧
        unpack16
          ((List.take 5 [0xAA, 0x12, 0x34, 0x56, 0x78, 1, 1, 72, 0, 1, 0x55]).getD (5 - 3) 0)
          ((List.take 5 [0xAA, 0x12, 0x34, 0x56, 0x78, 1, 1, 72, 0, 1, 0x55]).getD (5 - 2) 0)
          = 1) :=
  parse_frame_truncation_rejection ⟨0x1234, 0⟩ 0x5678 [72]
    [0xAA, 0x12, 0x34, 0x56, 0x78, 1, 1, 72, 0, 1, 0x55] 5 rfl (by decide)

/-- C5 (counterexample to the claim as stated): the valid 13-byte frame
for payload `[0, 1, 0x55]` has a strict 10-byte truncation that
`parse_frame` accepts, because the truncation ends right after the bytes
`0x00 0x01 0x55`, which mimic a checksum field and footer. -/
theorem parse_frame_accepts_embedded_shorter_frame :
    (create_frame ⟨0x1234, 0⟩ 0x5678 [0, 1, 0x55]).2 =
      Except.ok [0xAA, 0x12, 0x34, 0x56, 0x78, 1, 3, 0, 1, 0x55, 0, 1, 0x55] ∧
    (10 : Nat) < 13 ∧
    parse_frame
        (List.take 10 [0xAA, 0x12, 0x34, 0x56, 0x78, 1, 3, 0, 1, 0x55, 0, 1, 0x55]) =
      some ⟨0x1234, 0x5678, 1, [0, 1, 0x55]⟩ :=
  ⟨rfl, by decide, by decide⟩

/-- C6 (amended): for every explicitly supplied NONZERO 16-bit device id
`d`, construction yields `device_id = d`, and `create_frame` — the only
state-mutating operation; `parse_frame` and `retransmit_strategy` read no
mutable instance field — never changes `device_id`.  A supplied id of 0
is falsy in Python, so `device_id or random.randint(...)` replaces it by
the random draw. -/
theorem device_id_explicit_nonzero_immutable (d r : Nat) (s : State)
    (dst : Nat) (p : List Nat) (hd : 1 ≤ d) (_hd16 : d ≤ 0xFFFF) :
    (protocol_init (some d) r).device_id = d ∧
    ((create_frame s dst p).1).device_id = s.device_id := by
  constructor
  · show (if d = 0 then r else d) = d
    rw [if_neg (by omega)]
  · unfold create_frame
    split_ifs <;> rfl

/-- Concrete instance: explicit id 5 survives construction and an
encode. -/
theorem device_id_explicit_nonzero_immutable_witness :
    (protocol_init (some 5) 3).device_id = 5 ∧
    ((create_frame ⟨9, 0⟩ 2 [1]).1).device_id = 9 :=
  device_id_explicit_nonzero_immutable 5 3 ⟨9, 0⟩ 2 [1] (by decide) (by decide)

/-- C6 (counterexample to the claim as stated): supplying the explicit
16-bit id 0 does not yield `device_id = 0`; the Python `or` treats 0 as
absent and takes the random draw (here 7) instead. -/
theorem device_id_zero_replaced_by_random :
    (protocol_init (some 0) 7).device_id ≠ 0 := by
  decide

/-- C7: `create_frame` with a 256-byte payload fails with the
payload-too-large error without producing any frame bytes, and with a
255-byte payload it succeeds. -/
theorem payload_size_boundary (s : State) (dst : Nat) (p1 p2 : List Nat)
    (h1 : p1.length = 256) (h2 : p2.length = 255) :
    (create_frame s dst p1).2 = Except.error ProtocolError.payloadTooLarge ∧
    ∃ f, (create_frame s dst p2).2 = Except.ok f := by
  constructor
  · unfold create_frame
    rw [if_pos (by unfold MAX_PAYLOAD_SIZE; omega)]
  · exact ⟨_, by rw [create_frame_of_le s dst p2 (by omega)]⟩

/-- Concrete instance of the size boundary at payloads of all-zero
bytes. -/
theorem payload_size_boundary_witness :
    (create_frame ⟨1, 0⟩ 2 (List.replicate 256 0)).2 =
      Except.error ProtocolError.payloadTooLarge ∧
    ∃ f, (create_frame ⟨1, 0⟩ 2 (List.replicate 255 0)).2 = Except.ok f :=
  payload_size_boundary ⟨1, 0⟩ 2 (List.replicate 256 0) (List.replicate 255 0)
    (by rw [List.length_replicate]) (by rw [List.length_replicate])

/-- C8: a successful `create_frame` advances the sequence counter by one
modulo 256 before building the frame, the frame's sequence byte (index
5) is that new counter value, and from a fresh instance the 257th
encode's sequence number equals the 1st encode's. -/
theorem sequence_increment_and_wrap (s : State) (dst d : Nat) (p f : List Nat)
    (hp : p.length ≤ 255) (hf : (create_frame s dst p).2 = Except.ok f) :
    (create_frame s dst p).1.sequence_number = (s.sequence_number + 1) % 256 ∧
    f.getD 5 0 = (s.sequence_number + 1) % 256 ∧
    (iterate_encode dst p ⟨d, 0⟩ 257).sequence_number =
      (iterate_encode dst p ⟨d, 0⟩ 1).sequence_number := by
  rw [create_frame_of_le s dst p hp] at hf ⊢
  simp only [Except.ok.injEq] at hf
  refine ⟨rfl, ?_, ?_⟩
  · rw [← hf]
    rfl
  · rw [iterate_encode_sequence dst d p hp 257, iterate_encode_sequence dst d p hp 1]

/-- Concrete instance: empty payload from device 7, plus the modulo-256
wrap of the fresh instance 3. -/
theorem sequence_increment_and_wrap_witness :
    (create_frame ⟨7, 0⟩ 2 []).1.sequence_number = (0 + 1) % 256 ∧
    ([0xAA, 0, 7, 0, 2, 1, 0, 0, 1, 0x55] : List Nat).getD 5 0 = (0 + 1) % 256 ∧
    (iterate_encode 2 [] ⟨3, 0⟩ 257).sequence_number =
      (iterate_encode 2 [] ⟨3, 0⟩ 1).sequence_number :=
  sequence_increment_and_wrap ⟨7, 0⟩ 2 3 [] [0xAA, 0, 7, 0, 2, 1, 0, 0, 1, 0x55]
    (by decide) rfl

/-- C9: `parse_frame` is a total function of the input byte string: it
returns none or a parsed frame whose ids are 16-bit, whose sequence
number is 8-bit, and whose payload is a byte string no longer than the
input.  The Python `try/except` guard is unreachable: once the length
check passes, every subscript the body performs is in bounds. -/
theorem parse_frame_total (bs : List Nat) (hb : ∀ b ∈ bs, b < 256) :
    parse_frame bs = none ∨
      ∃ fr : Frame, parse_frame bs = some fr ∧ fr.source_id < 65536 ∧
        fr.destination_id < 65536 ∧ fr.sequence_number < 256 ∧
        fr.payload.length ≤ bs.length ∧ ∀ b ∈ fr.payload, b < 256 := by
  by_cases hnone : parse_frame bs = none
  · left
    exact hnone
  · right
    rw [parse_frame_eq_none_iff] at hnone
    push_neg at hnone
    obtain ⟨h1, h2, h3, h4⟩ := hnone
    refine ⟨_, parse_frame_eq_some bs (by omega) h2 h3 h4, ?_, ?_, ?_, ?_, ?_⟩
    · have ha := getD_lt_of_bytes bs hb 1
      have hbb := getD_lt_of_bytes bs hb 2
      show bs.getD 1 0 * 256 + bs.getD 2 0 < 65536
      omega
    · have ha := getD_lt_of_bytes bs hb 3
      have hbb := getD_lt_of_bytes bs hb 4
      show bs.getD 3 0 * 256 + bs.getD 4 0 < 65536
      omega
    · exact getD_lt_of_bytes bs hb 5
    · calc ((bs.drop 7).take (bs.getD 6 0)).length ≤ (bs.drop 7).length := by
            rw [List.length_take]; omega
        _ ≤ bs.length := by rw [List.length_drop]; omega
    · intro b hbmem
      exact hb b (List.mem_of_mem_drop (List.mem_of_mem_take hbmem))

/-- Concrete instance: totality on the two-byte input `[1, 2]`. -/
theorem parse_frame_total_witness :
    parse_frame [1, 2] = none ∨
      ∃ fr : Frame, parse_frame [1, 2] = some fr ∧ fr.source_id < 65536 ∧
        fr.destination_id < 65536 ∧ fr.sequence_number < 256 ∧
        fr.payload.length ≤ ([1, 2] : List Nat).length ∧ ∀ b ∈ fr.payload, b < 256 :=
  parse_frame_total [1, 2] (by decide)

/-- C10: `create_frame` is atomic on failure: an overlong payload yields
the payload-too-large error with the state unchanged, so a subsequent
encode behaves exactly as if the failing call had never happened. -/
theorem create_frame_atomic_on_failure (s : State) (dst : Nat) (p q : List Nat)
    (hp : 255 < p.length) (_hq : q.length ≤ 255) :
    (create_frame s dst p).1 = s ∧
    (create_frame s dst p).2 = Except.error ProtocolError.payloadTooLarge ∧
    create_frame ((create_frame s dst p).1) dst q = create_frame s dst q := by
  have h1 : create_frame s dst p = (s, Except.error ProtocolError.payloadTooLarge) := by
    unfold create_frame
    rw [if_pos (by unfold MAX_PAYLOAD_SIZE; omega)]
  exact ⟨by rw [h1], by rw [h1], by rw [h1]⟩

/-- Concrete instance: a failing 256-byte encode leaves the sequence
counter at 0 and the next encode unaffected. -/
theorem create_frame_atomic_on_failure_witness :
    (create_frame ⟨1, 0⟩ 2 (List.replicate 256 0)).1 = ⟨1, 0⟩ ∧
    (create_frame ⟨1, 0⟩ 2 (List.replicate 256 0)).2 =
      Except.error ProtocolError.payloadTooLarge ∧
    create_frame ((create_frame ⟨1, 0⟩ 2 (List.replicate 256 0)).1) 2 [5] =
      create_frame ⟨1, 0⟩ 2 [5] :=
  create_frame_atomic_on_failure ⟨1, 0⟩ 2 (List.replicate 256 0) [5]
    (by rw [List.length_replicate]; omega) (by decide)

end LoRaL2
